import Mathlib

/-!
Shallow embedding of the LightX `FaceSwapAPI` client
(`class FaceSwapAPI` in the repository's face-swap service module):
configuration constants, the image-buffer validator, the upload
negotiation pipeline (`processImage`), the job submitter
(`requestFaceSwap`), and the status poller (`pollFaceSwapStatus`).

Network responses are modelled as explicit event values consumed by the
embedded control flow; the process-wide `stats` object is threaded as
explicit state; `await`ed sleeps are logged as a list of wait durations
(milliseconds, as exact rationals mirroring the JS arithmetic).
-/

/-- `this.MAX_RETRIES = 5`. -/
def MAX_RETRIES : Nat := 5

/-- `this.POLL_INTERVAL = 3000` (milliseconds). -/
def POLL_INTERVAL : ℚ := 3000

/-- `this.MAX_FILE_SIZE = 5 * 1024 * 1024`. -/
def MAX_FILE_SIZE : Nat := 5 * 1024 * 1024

/-- `this.SUPPORTED_FORMATS = ["image/jpeg", "image/jpg", "image/png"]`. -/
def SUPPORTED_FORMATS : List String := ["image/jpeg", "image/jpg", "image/png"]

/-- `this.stats`: the process-wide counters.  The JS numbers are modelled
as `Nat` counters plus an exact-rational running average. -/
structure Stats where
  totalRequests : Nat
  successfulSwaps : Nat
  failedSwaps : Nat
  averageProcessingTime : ℚ
deriving DecidableEq, Repr

/-- The freshly-reset stats object (`resetStats()` / constructor initial value). -/
def statsReset : Stats :=
  { totalRequests := 0, successfulSwaps := 0, failedSwaps := 0
    averageProcessingTime := 0 }

/-- Does `pat` occur at the start of `s`?  Helper for the JS
`String.prototype.includes` used by `_isValidImageBuffer`. -/
def charsStartWith : List Char → List Char → Bool
  | [], _ => true
  | _ :: _, [] => false
  | p :: ps, c :: cs => p = c && charsStartWith ps cs

/-- Does `pat` occur anywhere in `s` (as a contiguous run)? -/
def hasSubstrChars (pat : List Char) : List Char → Bool
  | [] => pat.isEmpty
  | c :: cs => charsStartWith pat (c :: cs) || hasSubstrChars pat cs

/-- JS `s.includes(pat)`. -/
def strIncludes (s pat : String) : Bool :=
  hasSubstrChars pat.toList s.toList

/-- Image bytes: a JS `Buffer` as a list of byte values. -/
abbrev ImageBuffer := List Nat

/-- `buffer[0] === 0xff && buffer[1] === 0xd8 && buffer[2] === 0xff`
(read with the length ≥ 4 guard already passed; out-of-range reads
default to 0, which never equals the magic bytes, matching JS
`undefined === 0xff` being false). -/
def jpegMagic (buffer : ImageBuffer) : Bool :=
  buffer.getD 0 0 = 0xff && buffer.getD 1 0 = 0xd8 && buffer.getD 2 0 = 0xff

/-- `buffer[0] === 0x89 && buffer[1] === 0x50 && buffer[2] === 0x4e && buffer[3] === 0x47`. -/
def pngMagic (buffer : ImageBuffer) : Bool :=
  buffer.getD 0 0 = 0x89 && buffer.getD 1 0 = 0x50 &&
  buffer.getD 2 0 = 0x4e && buffer.getD 3 0 = 0x47

/-- `_isValidImageBuffer(buffer, contentType)`: signature check against
the declared content type, with the lenient either-signature fallback
when the content type names neither format. -/
def isValidImageBuffer (buffer : ImageBuffer) (contentType : String) : Bool :=
  if buffer.length < 4 then false
  else
    let jpg1 := jpegMagic buffer
    let png := pngMagic buffer
    if strIncludes contentType "jpeg" || strIncludes contentType "jpg" then jpg1
    else if strIncludes contentType "png" then png
    else jpg1 || png

/-- The violations `_validateImageBuffer` can push onto its `errors`
array, tagged by kind (each tag stands for the corresponding
human-readable message). -/
inductive Violation where
  | oversize (len : Nat)
  | undersize (len : Nat)
  | unsupportedFormat (contentType : String)
  | corruptData
deriving DecidableEq, Repr

/-- `_validateImageBuffer(imageBuffer, contentType)`: accumulates all
violations in push order (oversize, undersize, unsupported format,
signature failure). -/
def validateImageBuffer (imageBuffer : ImageBuffer) (contentType : String) :
    List Violation :=
  let e1 : List Violation :=
    if imageBuffer.length > MAX_FILE_SIZE then
      [Violation.oversize imageBuffer.length] else []
  let e2 : List Violation :=
    if imageBuffer.length < 1024 then
      [Violation.undersize imageBuffer.length] else []
  let e3 : List Violation :=
    if SUPPORTED_FORMATS.contains contentType then []
    else [Violation.unsupportedFormat contentType]
  let e4 : List Violation :=
    if isValidImageBuffer imageBuffer contentType then []
    else [Violation.corruptData]
  e1 ++ e2 ++ e3 ++ e4

/-- `validation.isValid`: zero violations. -/
def validationIsValid (imageBuffer : ImageBuffer) (contentType : String) : Bool :=
  validateImageBuffer imageBuffer contentType = []

/-- Is the violation one of the two size checks? -/
def Violation.isSize : Violation → Bool
  | .oversize _ => true
  | .undersize _ => true
  | _ => false

/-- Did validation report a size violation? -/
def hasSizeViolation (imageBuffer : ImageBuffer) (contentType : String) : Bool :=
  (validateImageBuffer imageBuffer contentType).any Violation.isSize

/-- The text the poll-loop catch block searches for with
`error.message.includes("Face swap failed during processing")`. -/
def processingFailedText : String :=
  "Face swap failed during processing"

/-- Errors thrown inside `pollFaceSwapStatus`, tagged by throw site. -/
inductive PollError where
  /-- `Status polling failed after ${MAX_RETRIES} attempts` (final-attempt
  HTTP failure inside the try block). -/
  | httpPollFailed (attempts : Nat)
  /-- `Face swap failed during processing. ...` (terminal `failed` status). -/
  | processingFailed
  /-- `Status check error: ${data.message || "Unknown error"}` (envelope
  with `statusCode !== 2000`). -/
  | statusCheckError (message : Option String)
  /-- An exception raised by `fetch`/`response.json()` itself (network
  error, `AbortError`, malformed JSON), carrying its message. -/
  | transportError (message : String)
  /-- `Face swap did not complete within ${MAX_RETRIES} attempts (...)`
  (post-loop exhaustion). -/
  | pollingExhausted (attempts : Nat)
deriving DecidableEq, Repr

/-- The `error.message` string of each modelled poll error. -/
def PollError.message : PollError → String
  | .httpPollFailed n => "Status polling failed after " ++ toString n ++ " attempts"
  | .processingFailed =>
      "Face swap failed during processing. This may be due to unclear faces or incompatible images."
  | .statusCheckError m => "Status check error: " ++ m.getD "Unknown error"
  | .transportError m => m
  | .pollingExhausted n =>
      "Face swap did not complete within " ++ toString n ++ " attempts"

/-- The success envelope of `POST /v1/order-status`:
`{statusCode, body:{status?, output?}, message?}`. -/
structure StatusEnvelope where
  statusCode : Nat
  status : Option String
  output : Option String
  message : Option String
deriving DecidableEq, Repr

/-- What one poll attempt's network interaction yields, as seen by the
control flow: an HTTP-level failure (`!response.ok`), a parsed JSON
envelope together with the elapsed time `Date.now() - startTime`
observed at that attempt, or a raised exception. -/
inductive PollEvent where
  | httpFail
  | ok (env : StatusEnvelope) (elapsed : ℚ)
  | raise (message : String)
deriving DecidableEq, Repr

/-- JS truthiness of an optional string field (present and non-empty),
as in `data.body?.output` or `data.body?.orderId`. -/
def strTruthy : Option String → Bool
  | none => false
  | some s => !s.isEmpty

/-- `Math.min(this.POLL_INTERVAL * Math.pow(1.5, attempt), 10000)`:
backoff after a non-final HTTP-level poll failure. -/
def httpBackoff (attempt : Nat) : ℚ :=
  min (POLL_INTERVAL * (3 / 2 : ℚ) ^ attempt) 10000

/-- `Math.min(this.POLL_INTERVAL * Math.pow(1.2, attempt), 8000)`:
backoff applied by the catch block to a swallowed non-terminal error. -/
def catchBackoff (attempt : Nat) : ℚ :=
  min (POLL_INTERVAL * (6 / 5 : ℚ) ^ attempt) 8000

/-- Outcome of one loop iteration after the catch block has run:
either fall through to the next iteration (having slept `waits` and
mutated stats to `s`), or leave the loop with a result. -/
inductive StepOut where
  | next (waits : List ℚ) (s : Stats)
  | success (output : String) (s : Stats) (waits : List ℚ)
  | thrown (e : PollError) (s : Stats) (waits : List ℚ)
deriving DecidableEq, Repr

/-- Outcome of the try block of one poll iteration, before the catch
block runs. -/
inductive TryOut where
  | next (waits : List ℚ) (s : Stats)
  | success (output : String) (s : Stats)
  | thrown (e : PollError) (s : Stats)
deriving DecidableEq, Repr

/-- The try block of one iteration of the `pollFaceSwapStatus` loop:
attempt number `attempt`, network interaction `ev`, stats `s`. -/
def pollTry (attempt : Nat) (ev : PollEvent) (s : Stats) : TryOut :=
  match ev with
  | .raise msg => .thrown (.transportError msg) s
  | .httpFail =>
      if attempt = MAX_RETRIES then
        .thrown (.httpPollFailed MAX_RETRIES) s
      else
        .next [httpBackoff attempt] s
  | .ok env elapsed =>
      if env.statusCode = 2000 then
        if env.status = some "active" && strTruthy env.output then
          let newCount := s.successfulSwaps + 1
          let newAvg : ℚ :=
            (s.averageProcessingTime * ((newCount : ℚ) - 1) + elapsed) /
              (newCount : ℚ)
          .success (env.output.getD "")
            { s with successfulSwaps := newCount, averageProcessingTime := newAvg }
        else if env.status = some "failed" then
          .thrown .processingFailed { s with failedSwaps := s.failedSwaps + 1 }
        else if env.status = some "init" then
          if attempt < MAX_RETRIES then .next [POLL_INTERVAL] s
          else .next [] s
        else
          .next [POLL_INTERVAL] s
      else
        .thrown (.statusCheckError env.message) s

/-- One full iteration of the poll loop: the try block, then the catch
block, which rethrows on the final attempt or when the error message
contains `processingFailedText`, and otherwise swallows the error and
sleeps the 1.2-curve backoff. -/
def pollStep (attempt : Nat) (ev : PollEvent) (s : Stats) : StepOut :=
  match pollTry attempt ev s with
  | .next ws s1 => .next ws s1
  | .success out s1 => .success out s1 []
  | .thrown e s1 =>
      if attempt = MAX_RETRIES || strIncludes e.message processingFailedText then
        .thrown e s1 []
      else
        .next [catchBackoff attempt] s1

/-- Result of a whole `pollFaceSwapStatus` call. -/
inductive PollResult where
  | success (output : String)
  | failure (e : PollError)
deriving DecidableEq, Repr

/-- Observable record of a whole `pollFaceSwapStatus` call: its
result, the final stats, every sleep performed (in order), and the
number of loop iterations begun. -/
structure PollRun where
  result : PollResult
  stats : Stats
  waits : List ℚ
  attempts : Nat
deriving DecidableEq, Repr

/-- The `for (let attempt = 1; attempt <= MAX_RETRIES; attempt++)` loop,
with `fuel` iterations remaining and `events a` the network interaction
of attempt `a`; falling off the loop runs the post-loop exhaustion code
(`stats.failedSwaps++; throw pollingExhausted`). -/
def pollLoop (events : Nat → PollEvent) :
    Nat → Nat → Stats → PollRun
  | 0, _, s =>
      { result := .failure (.pollingExhausted MAX_RETRIES)
        stats := { s with failedSwaps := s.failedSwaps + 1 }
        waits := [], attempts := 0 }
  | fuel + 1, attempt, s =>
      match pollStep attempt (events attempt) s with
      | .success out s1 ws =>
          { result := .success out, stats := s1, waits := ws, attempts := 1 }
      | .thrown e s1 ws =>
          { result := .failure e, stats := s1, waits := ws, attempts := 1 }
      | .next ws s1 =>
          let rest := pollLoop events fuel (attempt + 1) s1
          { result := rest.result, stats := rest.stats
            waits := ws ++ rest.waits, attempts := 1 + rest.attempts }

/-- `pollFaceSwapStatus(orderId)`, for a given stream of per-attempt
network interactions and starting stats. -/
def pollFaceSwapStatus (events : Nat → PollEvent) (s : Stats) : PollRun :=
  pollLoop events MAX_RETRIES 1 s

/-- What the `POST /v1/face-swap` interaction in `requestFaceSwap`
yields: a non-ok HTTP response with its status code, a parsed JSON
envelope `{statusCode, body:{orderId?}}`, or a raised exception
(`isAbort` marks an `AbortError` from the timeout controller). -/
inductive SubmitEvent where
  | httpFail (status : Nat)
  | ok (statusCode : Nat) (orderId : Option String)
  | raise (isAbort : Bool) (message : String)
deriving DecidableEq, Repr

/-- Errors thrown by `requestFaceSwap`, tagged by throw site. -/
inductive SubmitError where
  /-- `Face Swap API access denied (403)...`. -/
  | accessDenied
  /-- `Insufficient credits (402)...`. -/
  | insufficientCredits
  /-- `Invalid request (400)...`. -/
  | invalidFaces
  /-- `Face swap request failed: ${status} - ...` (other non-2xx). -/
  | upstream (status : Nat)
  /-- `Face swap failed: ${JSON.stringify(data)}` (envelope without a
  usable order id). -/
  | invalidResponse
  /-- `Face swap request timed out...` (AbortError rewrapped by the catch). -/
  | timeout
  /-- Any other raised exception, rethrown as-is. -/
  | transport (message : String)
deriving DecidableEq, Repr

/-- `requestFaceSwap(sourceImageUrl, targetImageUrl)`:
increments `totalRequests`, performs the submission interaction, and on
any thrown error increments `failedSwaps` in the catch before
propagating. -/
def requestFaceSwap (ev : SubmitEvent) (s : Stats) :
    Except SubmitError String × Stats :=
  let s0 := { s with totalRequests := s.totalRequests + 1 }
  match ev with
  | .httpFail status =>
      let e : SubmitError :=
        if status = 403 then .accessDenied
        else if status = 402 then .insufficientCredits
        else if status = 400 then .invalidFaces
        else .upstream status
      (.error e, { s0 with failedSwaps := s0.failedSwaps + 1 })
  | .ok statusCode orderId =>
      if statusCode = 2000 && strTruthy orderId then
        (.ok (orderId.getD ""), s0)
      else
        (.error .invalidResponse, { s0 with failedSwaps := s0.failedSwaps + 1 })
  | .raise isAbort message =>
      (.error (if isAbort then .timeout else .transport message),
       { s0 with failedSwaps := s0.failedSwaps + 1 })

/-- The success envelope of `POST /v2/uploadImageUrl`:
`{statusCode, body:{uploadImage?, imageUrl?, size?}}`. -/
structure UploadEnvelope where
  statusCode : Nat
  uploadImage : Option String
  imageUrl : Option String
  size : Option Nat
deriving DecidableEq, Repr

/-- What the upload-URL negotiation interaction in `getUploadUrl` yields. -/
inductive NegotiateEvent where
  | httpFail (status : Nat)
  | ok (env : UploadEnvelope)
  | raise (isAbort : Bool) (message : String)
deriving DecidableEq, Repr

/-- What the `PUT` of the raw bytes in `uploadImageToS3` yields. -/
inductive PutEvent where
  | ok
  | httpFail (status : Nat)
  | raise (isAbort : Bool) (message : String)
deriving DecidableEq, Repr

/-- How the image bytes are acquired at the top of `processImage`:
remote fetch (with the response's `content-type` header) or local file
read (with the lower-cased path extension). -/
inductive AcquireEvent where
  | urlOk (buffer : ImageBuffer) (contentTypeHeader : Option String)
  | urlHttpFail (status : Nat)
  | urlRaise (message : String)
  | localOk (buffer : ImageBuffer) (ext : String)
  | localMissing (path : String)
deriving DecidableEq, Repr

/-- Errors thrown inside the `processImage` pipeline
(acquisition, validation, upload-URL negotiation, S3 PUT),
tagged by throw site. -/
inductive ImageError where
  | fetchFailed (status : Nat)
  | fetchRaise (message : String)
  | notFound (path : String)
  | unsupportedExtension (ext : String)
  | validationFailed (errors : List Violation)
  | authenticationFailed
  | rateLimited
  | paymentRequired
  | uploadUrlFailed (status : Nat)
  | invalidUploadResponse
  | uploadUrlTimeout
  | uploadUrlRaise (message : String)
  | s3UploadFailed (status : Nat)
  | s3Timeout
  | s3Raise (message : String)
deriving DecidableEq, Repr

/-- The value `getUploadUrl` resolves to on success. -/
structure UploadTicket where
  uploadUrl : String
  imageUrl : String
  size : Option Nat
deriving DecidableEq, Repr

/-- `getUploadUrl(imageBuffer, contentType)`: validate the buffer, then
negotiate a signed upload destination.  Note it never touches
`this.stats`. -/
def getUploadUrl (imageBuffer : ImageBuffer) (contentType : String)
    (ev : NegotiateEvent) : Except ImageError UploadTicket :=
  if !validationIsValid imageBuffer contentType then
    .error (.validationFailed (validateImageBuffer imageBuffer contentType))
  else
    match ev with
    | .httpFail status =>
        if status = 403 then .error .authenticationFailed
        else if status = 429 then .error .rateLimited
        else if status = 402 then .error .paymentRequired
        else .error (.uploadUrlFailed status)
    | .ok env =>
        if env.statusCode = 2000 && strTruthy env.uploadImage &&
            strTruthy env.imageUrl then
          .ok { uploadUrl := env.uploadImage.getD ""
                imageUrl := env.imageUrl.getD ""
                size := env.size }
        else .error .invalidUploadResponse
    | .raise isAbort message =>
        if isAbort then .error .uploadUrlTimeout
        else .error (.uploadUrlRaise message)

/-- `uploadImageToS3(uploadUrl, imageBuffer, contentType)`:
single-attempt PUT; never touches `this.stats`. -/
def uploadImageToS3 (ev : PutEvent) : Except ImageError Unit :=
  match ev with
  | .ok => .ok ()
  | .httpFail status => .error (.s3UploadFailed status)
  | .raise isAbort message =>
      if isAbort then .error .s3Timeout
      else .error (.s3Raise message)

/-- `processImage(imageSource, isUrl)`: acquire bytes and their content
type, negotiate the upload, PUT the bytes, and return the public image
URL.  Never touches `this.stats`. -/
def processImage (acq : AcquireEvent) (neg : NegotiateEvent)
    (put : PutEvent) : Except ImageError String := do
  let (imageBuffer, contentType) ←
    match acq with
    | .urlOk buffer header => pure (buffer, header.getD "image/jpeg")
    | .urlHttpFail status => .error (.fetchFailed status)
    | .urlRaise message => .error (.fetchRaise message)
    | .localOk buffer ext =>
        if ext = ".png" then pure (buffer, "image/png")
        else if ext = ".jpg" || ext = ".jpeg" then pure (buffer, "image/jpeg")
        else .error (.unsupportedExtension ext)
    | .localMissing path => .error (.notFound path)
  let uploadInfo ← getUploadUrl imageBuffer contentType neg
  let _ ← uploadImageToS3 put
  pure uploadInfo.imageUrl

/-- The whole environment of one `performFaceSwap` call: the network
interactions of the two image pipelines, the submission, and the poll
attempts. -/
structure SwapJobEnv where
  sourceAcquire : AcquireEvent
  sourceNegotiate : NegotiateEvent
  sourcePut : PutEvent
  targetAcquire : AcquireEvent
  targetNegotiate : NegotiateEvent
  targetPut : PutEvent
  submit : SubmitEvent
  poll : Nat → PollEvent

/-- Any failure propagated out of `performFaceSwap`, tagged by stage. -/
inductive SwapFailure where
  | imageError (e : ImageError)
  | submitError (e : SubmitError)
  | pollError (e : PollError)
deriving DecidableEq, Repr

/-- The source-image pipeline of one job. -/
def sourcePipeline (env : SwapJobEnv) : Except ImageError String :=
  processImage env.sourceAcquire env.sourceNegotiate env.sourcePut

/-- The target-image pipeline of one job. -/
def targetPipeline (env : SwapJobEnv) : Except ImageError String :=
  processImage env.targetAcquire env.targetNegotiate env.targetPut

/-- `performFaceSwap(sourceImage, targetImage, sourceIsUrl, targetIsUrl)`:
`Promise.all` over the two image pipelines, then submission, then
polling; the first failure is rethrown unchanged by the outer catch. -/
def performFaceSwap (env : SwapJobEnv) (s : Stats) :
    Except SwapFailure String × Stats :=
  match sourcePipeline env, targetPipeline env with
  | .error e, _ => (.error (.imageError e), s)
  | .ok _, .error e => (.error (.imageError e), s)
  | .ok _sourceUrl, .ok _targetUrl =>
      match requestFaceSwap env.submit s with
      | (.error e, s1) => (.error (.submitError e), s1)
      | (.ok _orderId, s1) =>
          let run := pollFaceSwapStatus env.poll s1
          match run.result with
          | .success out => (.ok out, run.stats)
          | .failure e => (.error (.pollError e), run.stats)

/-- Modelled from the claim's wording (spec side, for comparison with
`isValidImageBuffer`): the buffer "carries the JPEG magic number":
its first three bytes exist and are `FF D8 FF`. -/
def carriesJpegMagic (b : ImageBuffer) : Bool :=
  3 ≤ b.length && b.getD 0 0 = 0xff && b.getD 1 0 = 0xd8 && b.getD 2 0 = 0xff

/-- Modelled from the claim's wording (spec side, for comparison with
`isValidImageBuffer`): the buffer "carries the PNG magic number":
its first four bytes exist and are `89 50 4E 47`. -/
def carriesPngMagic (b : ImageBuffer) : Bool :=
  4 ≤ b.length && b.getD 0 0 = 0x89 && b.getD 1 0 = 0x50 &&
  b.getD 2 0 = 0x4e && b.getD 3 0 = 0x47

/-- A sample `init` status response, used to instantiate theorems. -/
def sampleInitEvent : PollEvent := .ok ⟨2000, some "init", none, none⟩ 0

/-- A sample unrecognized status response, used to instantiate theorems. -/
def sampleUnknownEvent : PollEvent := .ok ⟨2000, some "processing", none, none⟩ 0

/-- A sample `active` status response with a non-empty output, used to
instantiate theorems. -/
def sampleActiveEvent : PollEvent := .ok ⟨2000, some "active", some "http://out", none⟩ 1234

/-- A sample `failed` status response, used to instantiate theorems. -/
def sampleFailedEvent : PollEvent := .ok ⟨2000, some "failed", none, none⟩ 0

/-- A valid 1024-byte JPEG buffer (magic header plus padding), used to
instantiate theorems. -/
def sampleSourceBuffer : ImageBuffer := 0xff :: 0xd8 :: 0xff :: List.replicate 1021 0

/-- The spec's end-to-end failure scenario target: a 500-byte PNG
buffer (undersized), used to instantiate theorems. -/
def sampleSmallTargetBuffer : ImageBuffer :=
  0x89 :: 0x50 :: 0x4e :: 0x47 :: List.replicate 496 0

/-- A job environment in which every network interaction would succeed
but the target image is the undersized 500-byte buffer, used to
instantiate theorems. -/
def sampleFailEnv : SwapJobEnv :=
  { sourceAcquire := .urlOk sampleSourceBuffer (some "image/jpeg")
    sourceNegotiate := .ok ⟨2000, some "https://up.example/a", some "https://img.example/a", none⟩
    sourcePut := .ok
    targetAcquire := .localOk sampleSmallTargetBuffer ".png"
    targetNegotiate := .ok ⟨2000, some "https://up.example/b", some "https://img.example/b", none⟩
    targetPut := .ok
    submit := .ok 2000 (some "ord-1")
    poll := fun _ => sampleActiveEvent }

lemma pngIncJpeg : strIncludes "image/png" "jpeg" = false := by decide

lemma pngIncJpg : strIncludes "image/png" "jpg" = false := by decide

lemma pngIncPng : strIncludes "image/png" "png" = true := by decide

/-- C7: for every byte buffer and declared content type,
`_validateImageBuffer` reports a size violation (oversize or undersize)
if and only if the buffer is longer than `5*1024*1024` bytes or shorter
than `1024` bytes; in-range buffers never produce a size violation,
regardless of content. -/
theorem C7_size_violation_iff (buffer : ImageBuffer) (contentType : String) :
    hasSizeViolation buffer contentType = true ↔
      (buffer.length > 5 * 1024 * 1024 ∨ buffer.length < 1024) := by
  unfold hasSizeViolation validateImageBuffer MAX_FILE_SIZE
  by_cases h1 : buffer.length > 5 * 1024 * 1024 <;>
    by_cases h2 : buffer.length < 1024 <;>
      simp [h1, h2, Violation.isSize]

set_option maxRecDepth 4000 in
/-- C7 witness: a 500-byte buffer yields a size violation. -/
theorem C7_size_violation_witness :
    hasSizeViolation (List.replicate 500 137) "image/jpeg" = true :=
  (C7_size_violation_iff (List.replicate 500 137) "image/jpeg").mpr
    (Or.inr (by decide))

/-- C8 (amended): (1) every buffer whose first three bytes are the JPEG
magic, declared as `image/png`, fails the signature check and validation
reports a corrupt-data violation; (2) for every buffer of at least four
bytes whose declared content type contains neither a jpeg/jpg hint nor
a png hint, the signature check accepts the buffer exactly when it
carries the JPEG or the PNG magic.  (The four-byte floor in (2) is the
amendment: `_isValidImageBuffer` rejects any buffer shorter than four
bytes, including a three-byte buffer that carries the full JPEG magic.) -/
theorem C8_signature_check_amended :
    (∀ b : ImageBuffer, carriesJpegMagic b = true →
      isValidImageBuffer b "image/png" = false ∧
        Violation.corruptData ∈ validateImageBuffer b "image/png") ∧
    (∀ (b : ImageBuffer) (ct : String), 4 ≤ b.length →
      strIncludes ct "jpeg" = false → strIncludes ct "jpg" = false →
      strIncludes ct "png" = false →
      isValidImageBuffer b ct = (carriesJpegMagic b || carriesPngMagic b)) := by
  constructor
  · intro b h
    unfold carriesJpegMagic at h
    simp only [Bool.and_eq_true, decide_eq_true_eq] at h
    have hb : b.getD 0 0 = 0xff := h.1.1.2
    simp only [List.getD_eq_getElem?_getD] at hb
    have hv : isValidImageBuffer b "image/png" = false := by
      unfold isValidImageBuffer
      split
      · rfl
      · simp [pngIncJpeg, pngIncJpg, pngIncPng, pngMagic, hb]
    refine ⟨hv, ?_⟩
    unfold validateImageBuffer
    simp [hv]
  · intro b ct hlen h1 h2 h3
    unfold isValidImageBuffer carriesJpegMagic carriesPngMagic jpegMagic pngMagic
    have hlen3 : (3 ≤ b.length) = True := by simp; omega
    have hlen4 : (4 ≤ b.length) = True := by simp [hlen]
    rw [if_neg (by omega)]
    simp [h1, h2, h3, hlen3, hlen4]

/-- C8 counterexample: a three-byte buffer carrying the full JPEG magic,
declared with a content type naming neither format, is rejected by
`_isValidImageBuffer`, contradicting the claim that under the lenient
fallback acceptance holds exactly when the buffer carries one of the
two magic numbers. -/
theorem C8_signature_check_counterexample :
    strIncludes "application/octet-stream" "jpeg" = false ∧
    strIncludes "application/octet-stream" "jpg" = false ∧
    strIncludes "application/octet-stream" "png" = false ∧
    carriesJpegMagic [0xff, 0xd8, 0xff] = true ∧
    isValidImageBuffer [0xff, 0xd8, 0xff] "application/octet-stream" = false := by
  decide

/-- C8 witness: the amended theorem at concrete inputs. -/
theorem C8_signature_check_witness :
    isValidImageBuffer [0xff, 0xd8, 0xff, 0x00] "image/png" = false ∧
    isValidImageBuffer [0xff, 0xd8, 0xff, 0x00] "application/octet-stream" = true := by
  have h1 := C8_signature_check_amended.1 [0xff, 0xd8, 0xff, 0x00] (by decide)
  have h2 := C8_signature_check_amended.2 [0xff, 0xd8, 0xff, 0x00]
    "application/octet-stream" (by decide) (by decide) (by decide) (by decide)
  exact ⟨h1.1, by rw [h2]; decide⟩

set_option maxRecDepth 4000 in
lemma strIncludes_processingFailed :
    strIncludes PollError.processingFailed.message processingFailedText = true := by
  decide

lemma pollStep_init (a : Nat) (s : Stats) (out msg : Option String) (t : ℚ) :
    pollStep a (.ok ⟨2000, some "init", out, msg⟩ t) s =
      .next (if a < MAX_RETRIES then [POLL_INTERVAL] else []) s := by
  unfold pollStep pollTry
  by_cases hA : a < MAX_RETRIES <;> simp [strTruthy, hA]

lemma pollStep_active (a : Nat) (s : Stats) (out : String) (msg : Option String)
    (t : ℚ) (h : out ≠ "") :
    pollStep a (.ok ⟨2000, some "active", some out, msg⟩ t) s =
      .success out
        { s with successfulSwaps := s.successfulSwaps + 1
                 averageProcessingTime :=
                   (s.averageProcessingTime * (((s.successfulSwaps + 1 : Nat) : ℚ) - 1) + t) /
                     ((s.successfulSwaps + 1 : Nat) : ℚ) } [] := by
  unfold pollStep pollTry
  have hE : out.isEmpty = false := by
    rw [Bool.eq_false_iff]
    intro hc
    exact h ((String.isEmpty_iff out).mp hc)
  simp [strTruthy, hE]

lemma pollStep_failed (a : Nat) (s : Stats) (out msg : Option String) (t : ℚ) :
    pollStep a (.ok ⟨2000, some "failed", out, msg⟩ t) s =
      .thrown .processingFailed { s with failedSwaps := s.failedSwaps + 1 } [] := by
  unfold pollStep pollTry
  simp [strTruthy, strIncludes_processingFailed]

lemma pollStep_unknownStatus (a : Nat) (s : Stats) (st : Option String)
    (out msg : Option String) (t : ℚ)
    (h1 : ¬(st = some "active" ∧ strTruthy out = true))
    (h2 : st ≠ some "failed") (h3 : st ≠ some "init") :
    pollStep a (.ok ⟨2000, st, out, msg⟩ t) s = .next [POLL_INTERVAL] s := by
  unfold pollStep pollTry
  simp [h1, h2, h3]

lemma pollStep_httpFail_nonfinal (a : Nat) (s : Stats) (h : a ≠ MAX_RETRIES) :
    pollStep a .httpFail s = .next [httpBackoff a] s := by
  unfold pollStep pollTry
  simp [h]

lemma pollStep_httpFail_final (s : Stats) :
    pollStep MAX_RETRIES .httpFail s =
      .thrown (.httpPollFailed MAX_RETRIES) s [] := by
  unfold pollStep pollTry
  simp

lemma pollStep_raise_nonfinal (a : Nat) (s : Stats) (m : String)
    (h : a ≠ MAX_RETRIES) (hm : strIncludes m processingFailedText = false) :
    pollStep a (.raise m) s = .next [catchBackoff a] s := by
  unfold pollStep pollTry
  simp [h, PollError.message, hm]

lemma pollStep_raise_final (s : Stats) (m : String) :
    pollStep MAX_RETRIES (.raise m) s = .thrown (.transportError m) s [] := by
  unfold pollStep pollTry
  simp

lemma pollStep_statusCheck_nonfinal (a : Nat) (s : Stats) (env : StatusEnvelope)
    (t : ℚ) (h : a ≠ MAX_RETRIES) (hsc : env.statusCode ≠ 2000)
    (hm : strIncludes (PollError.statusCheckError env.message).message
        processingFailedText = false) :
    pollStep a (.ok env t) s = .next [catchBackoff a] s := by
  unfold pollStep pollTry
  simp [h, hsc, hm]

lemma pollLoop_zero (events : Nat → PollEvent) (attempt : Nat) (s : Stats) :
    pollLoop events 0 attempt s =
      { result := .failure (.pollingExhausted MAX_RETRIES)
        stats := { s with failedSwaps := s.failedSwaps + 1 }
        waits := [], attempts := 0 } := rfl

lemma pollLoop_next (events : Nat → PollEvent) (fuel attempt : Nat) (s s1 : Stats)
    (ws : List ℚ) (h : pollStep attempt (events attempt) s = .next ws s1) :
    pollLoop events (fuel + 1) attempt s =
      { result := (pollLoop events fuel (attempt + 1) s1).result
        stats := (pollLoop events fuel (attempt + 1) s1).stats
        waits := ws ++ (pollLoop events fuel (attempt + 1) s1).waits
        attempts := 1 + (pollLoop events fuel (attempt + 1) s1).attempts } := by
  conv_lhs => unfold pollLoop
  rw [h]

lemma pollLoop_success (events : Nat → PollEvent) (fuel attempt : Nat) (s s1 : Stats)
    (out : String) (ws : List ℚ)
    (h : pollStep attempt (events attempt) s = .success out s1 ws) :
    pollLoop events (fuel + 1) attempt s =
      { result := .success out, stats := s1, waits := ws, attempts := 1 } := by
  conv_lhs => unfold pollLoop
  rw [h]

lemma pollLoop_thrown (events : Nat → PollEvent) (fuel attempt : Nat) (s s1 : Stats)
    (e : PollError) (ws : List ℚ)
    (h : pollStep attempt (events attempt) s = .thrown e s1 ws) :
    pollLoop events (fuel + 1) attempt s =
      { result := .failure e, stats := s1, waits := ws, attempts := 1 } := by
  conv_lhs => unfold pollLoop
  rw [h]

lemma pollTry_next_stats (a : Nat) (e : PollEvent) (s s1 : Stats) (ws : List ℚ)
    (h : pollTry a e s = .next ws s1) : s1 = s := by
  unfold pollTry at h
  rcases e with _ | ⟨env, t⟩ | m <;> (repeat' split at h) <;>
    (cases h <;> simp_all)

lemma pollTry_success_stats (a : Nat) (e : PollEvent) (s s1 : Stats)
    (out : String) (h : pollTry a e s = .success out s1) :
    s1.successfulSwaps = s.successfulSwaps + 1 ∧ s1.failedSwaps = s.failedSwaps := by
  unfold pollTry at h
  rcases e with _ | ⟨env, t⟩ | m <;> (repeat' split at h) <;>
    (cases h <;> simp_all)

lemma pollTry_thrown_cases (a : Nat) (e : PollEvent) (s s1 : Stats)
    (e2 : PollError) (h : pollTry a e s = .thrown e2 s1) :
    (s1 = s ∧ e2 ≠ .processingFailed) ∨
      (e2 = .processingFailed ∧ s1 = { s with failedSwaps := s.failedSwaps + 1 }) := by
  unfold pollTry at h
  rcases e with _ | ⟨env, t⟩ | m <;> (repeat' split at h) <;>
    (cases h <;> simp_all)

lemma pollStep_next_stats (a : Nat) (e : PollEvent) (s s1 : Stats) (ws : List ℚ)
    (h : pollStep a e s = .next ws s1) : s1 = s := by
  unfold pollStep at h
  cases hT : pollTry a e s with
  | next ws' s' =>
      rw [hT] at h; dsimp only at h
      cases h
      exact pollTry_next_stats a e s s1 ws hT
  | success out' s' => rw [hT] at h; dsimp only at h; cases h
  | thrown e' s' =>
      rw [hT] at h; dsimp only at h
      by_cases hc : (decide (a = MAX_RETRIES) || strIncludes (PollError.message e') processingFailedText) = true
      · rw [if_pos hc] at h; cases h
      · rw [if_neg hc] at h
        cases h
        rcases pollTry_thrown_cases a e s s1 e' hT with ⟨hs, hne⟩ | ⟨hpf, hs⟩
        · exact hs
        · exfalso
          apply hc
          subst hpf
          simp [strIncludes_processingFailed]

lemma pollStep_success_stats (a : Nat) (e : PollEvent) (s s1 : Stats)
    (out : String) (ws : List ℚ) (h : pollStep a e s = .success out s1 ws) :
    s1.successfulSwaps = s.successfulSwaps + 1 ∧ s1.failedSwaps = s.failedSwaps := by
  unfold pollStep at h
  cases hT : pollTry a e s with
  | next ws' s' => rw [hT] at h; dsimp only at h; cases h
  | success out' s' =>
      rw [hT] at h; dsimp only at h
      cases h
      exact pollTry_success_stats a e s s1 out hT
  | thrown e' s' =>
      rw [hT] at h; dsimp only at h
      split at h <;> cases h

lemma pollStep_thrown_stats (a : Nat) (e : PollEvent) (s s1 : Stats)
    (e2 : PollError) (ws : List ℚ) (h : pollStep a e s = .thrown e2 s1 ws) :
    s1.successfulSwaps = s.successfulSwaps ∧ s.failedSwaps ≤ s1.failedSwaps ∧
      s1.failedSwaps ≤ s.failedSwaps + 1 := by
  unfold pollStep at h
  cases hT : pollTry a e s with
  | next ws' s' => rw [hT] at h; dsimp only at h; cases h
  | success out' s' => rw [hT] at h; dsimp only at h; cases h
  | thrown e' s' =>
      rw [hT] at h; dsimp only at h
      split at h
      · cases h
        rcases pollTry_thrown_cases a e s s1 e2 hT with ⟨hs, _⟩ | ⟨_, hs⟩ <;>
          subst hs <;> simp
      · cases h

/-- Stats bound along the whole loop: the counters never decrease and
their sum rises by at most one. -/
lemma pollLoop_stats_bound (events : Nat → PollEvent) :
    ∀ (fuel attempt : Nat) (s : Stats),
      s.successfulSwaps ≤ (pollLoop events fuel attempt s).stats.successfulSwaps ∧
      s.failedSwaps ≤ (pollLoop events fuel attempt s).stats.failedSwaps ∧
      (pollLoop events fuel attempt s).stats.successfulSwaps +
          (pollLoop events fuel attempt s).stats.failedSwaps ≤
        s.successfulSwaps + s.failedSwaps + 1 := by
  intro fuel
  induction fuel with
  | zero =>
      intro attempt s
      rw [pollLoop_zero]
      simp
      omega
  | succ fuel ih =>
      intro attempt s
      cases hS : pollStep attempt (events attempt) s with
      | next ws s1 =>
          rw [pollLoop_next events fuel attempt s s1 ws hS]
          have hs1 : s1 = s := pollStep_next_stats attempt (events attempt) s s1 ws hS
          subst hs1
          exact ih (attempt + 1) s1
      | success out s1 ws =>
          rw [pollLoop_success events fuel attempt s s1 out ws hS]
          obtain ⟨h1, h2⟩ := pollStep_success_stats attempt (events attempt) s s1 out ws hS
          simp [h1, h2]
          omega
      | thrown e s1 ws =>
          rw [pollLoop_thrown events fuel attempt s s1 e ws hS]
          obtain ⟨h1, h2, h3⟩ := pollStep_thrown_stats attempt (events attempt) s s1 e ws hS
          simp [h1]
          omega

/-- When every remaining attempt reports `init`, the loop runs to
exhaustion: one iteration per unit of fuel, a fixed-interval wait after
every attempt except the last, one `failedSwaps` increment, and the
exhaustion error. -/
lemma pollLoop_init_run (events : Nat → PollEvent) :
    ∀ (fuel attempt : Nat) (s : Stats),
      attempt + fuel = MAX_RETRIES + 1 →
      (∀ a, attempt ≤ a → a ≤ MAX_RETRIES →
        ∃ out msg t, events a = .ok ⟨2000, some "init", out, msg⟩ t) →
      pollLoop events fuel attempt s =
        { result := .failure (.pollingExhausted MAX_RETRIES)
          stats := { s with failedSwaps := s.failedSwaps + 1 }
          waits := List.replicate (fuel - 1) POLL_INTERVAL
          attempts := fuel } := by
  intro fuel
  induction fuel with
  | zero =>
      intro attempt s hsum hev
      rw [pollLoop_zero]
      simp
  | succ fuel ih =>
      intro attempt s hsum hev
      obtain ⟨out, msg, t, hevA⟩ := hev attempt (le_refl _) (by omega)
      have hstep : pollStep attempt (events attempt) s =
          .next (if attempt < MAX_RETRIES then [POLL_INTERVAL] else []) s := by
        rw [hevA]
        exact pollStep_init attempt s out msg t
      rw [pollLoop_next events fuel attempt s s _ hstep]
      rw [ih (attempt + 1) s (by omega) (fun a ha1 ha2 => hev a (by omega) ha2)]
      by_cases hlt : attempt < MAX_RETRIES
      · have hfuel : 1 ≤ fuel := by
          simp only [MAX_RETRIES] at hsum hlt
          omega
        simp only [hlt, if_true]
        have hrep : [POLL_INTERVAL] ++ List.replicate (fuel - 1) POLL_INTERVAL =
            List.replicate (fuel + 1 - 1) POLL_INTERVAL := by
          have : fuel + 1 - 1 = 1 + (fuel - 1) := by omega
          rw [this, List.replicate_add]
          rfl
        rw [PollRun.mk.injEq]
        exact ⟨rfl, rfl, hrep, by omega⟩
      · have hfuel : fuel = 0 := by
          simp only [MAX_RETRIES] at hsum hlt
          omega
        subst hfuel
        simp [hlt]

/-- C1: when every status request succeeds with a well-formed `init`
response, `pollFaceSwapStatus` performs exactly `MAX_RETRIES = 5`
attempts, waits the fixed 3000 ms poll interval between consecutive
attempts but not after the last (four waits), increments `failedSwaps`
once, and fails with the exhaustion error naming the attempt count. -/
theorem C1_poll_exhausts_on_init (events : Nat → PollEvent) (s : Stats)
    (h : ∀ a, 1 ≤ a → a ≤ MAX_RETRIES →
      ∃ out msg t, events a = .ok ⟨2000, some "init", out, msg⟩ t) :
    pollFaceSwapStatus events s =
      { result := .failure (.pollingExhausted 5)
        stats := { s with failedSwaps := s.failedSwaps + 1 }
        waits := List.replicate 4 (3000 : ℚ)
        attempts := 5 } := by
  unfold pollFaceSwapStatus
  rw [pollLoop_init_run events MAX_RETRIES 1 s (by decide) h]
  rfl

/-- C1 witness: the theorem at a constant `init` event stream and fresh
stats. -/
theorem C1_poll_exhausts_on_init_witness :
    pollFaceSwapStatus (fun _ => sampleInitEvent) statsReset =
      { result := .failure (.pollingExhausted 5)
        stats := { statsReset with failedSwaps := 1 }
        waits := List.replicate 4 (3000 : ℚ)
        attempts := 5 } :=
  C1_poll_exhausts_on_init (fun _ => sampleInitEvent) statsReset
    (fun _ _ _ => ⟨none, none, 0, rfl⟩)

/-- C2: an `active` response with a non-empty output ends polling
immediately with that output, increments `successfulSwaps` by one, and
sets the running average to `(oldAvg*(n-1) + elapsed) / n` with `n` the
updated count; at the whole-call level a first-attempt `active` response
gives a one-attempt run with no waits, and from freshly reset stats the
average equals the elapsed time of the single job. -/
theorem C2_active_success :
    (∀ (a : Nat) (s : Stats) (out : String) (msg : Option String) (t : ℚ),
      out ≠ "" →
      pollStep a (.ok ⟨2000, some "active", some out, msg⟩ t) s =
        .success out
          { s with successfulSwaps := s.successfulSwaps + 1
                   averageProcessingTime :=
                     (s.averageProcessingTime * (((s.successfulSwaps + 1 : Nat) : ℚ) - 1) + t) /
                       ((s.successfulSwaps + 1 : Nat) : ℚ) } []) ∧
    (∀ (events : Nat → PollEvent) (s : Stats) (out : String) (msg : Option String) (t : ℚ),
      out ≠ "" → events 1 = .ok ⟨2000, some "active", some out, msg⟩ t →
      pollFaceSwapStatus events s =
        { result := .success out
          stats :=
            { s with successfulSwaps := s.successfulSwaps + 1
                     averageProcessingTime :=
                       (s.averageProcessingTime * (((s.successfulSwaps + 1 : Nat) : ℚ) - 1) + t) /
                         ((s.successfulSwaps + 1 : Nat) : ℚ) }
          waits := [], attempts := 1 }) ∧
    (∀ (out : String) (msg : Option String) (t : ℚ), out ≠ "" →
      (pollFaceSwapStatus (fun _ => .ok ⟨2000, some "active", some out, msg⟩ t)
          statsReset).stats.averageProcessingTime = t) := by
  have part1 : ∀ (a : Nat) (s : Stats) (out : String) (msg : Option String) (t : ℚ),
      out ≠ "" →
      pollStep a (.ok ⟨2000, some "active", some out, msg⟩ t) s =
        .success out
          { s with successfulSwaps := s.successfulSwaps + 1
                   averageProcessingTime :=
                     (s.averageProcessingTime * (((s.successfulSwaps + 1 : Nat) : ℚ) - 1) + t) /
                       ((s.successfulSwaps + 1 : Nat) : ℚ) } [] :=
    fun a s out msg t h => pollStep_active a s out msg t h
  have part2 : ∀ (events : Nat → PollEvent) (s : Stats) (out : String)
      (msg : Option String) (t : ℚ),
      out ≠ "" → events 1 = .ok ⟨2000, some "active", some out, msg⟩ t →
      pollFaceSwapStatus events s =
        { result := .success out
          stats :=
            { s with successfulSwaps := s.successfulSwaps + 1
                     averageProcessingTime :=
                       (s.averageProcessingTime * (((s.successfulSwaps + 1 : Nat) : ℚ) - 1) + t) /
                         ((s.successfulSwaps + 1 : Nat) : ℚ) }
          waits := [], attempts := 1 } := by
    intro events s out msg t h hev
    have hstep : pollStep 1 (events 1) s =
        .success out
          { s with successfulSwaps := s.successfulSwaps + 1
                   averageProcessingTime :=
                     (s.averageProcessingTime * (((s.successfulSwaps + 1 : Nat) : ℚ) - 1) + t) /
                       ((s.successfulSwaps + 1 : Nat) : ℚ) } [] := by
      rw [hev]
      exact part1 1 s out msg t h
    show pollLoop events (4 + 1) 1 s = _
    rw [pollLoop_success events 4 1 s _ out [] hstep]
  refine ⟨part1, part2, ?_⟩
  intro out msg t h
  rw [part2 (fun _ => .ok ⟨2000, some "active", some out, msg⟩ t) statsReset out msg t h rfl]
  simp [statsReset]

/-- C2 witness: the whole-call clause at a concrete `active` event from
reset stats: the average equals the single job's elapsed time. -/
theorem C2_active_success_witness :
    (pollFaceSwapStatus (fun _ => sampleActiveEvent) statsReset).stats.averageProcessingTime =
      1234 :=
  C2_active_success.2.2 "http://out" none 1234 (by decide)

/-- C3: a well-formed `failed` response is terminal at any attempt:
`failedSwaps` is incremented exactly once and the processing-failure
error is rethrown by the catch block rather than swallowed, even when
attempts remain; a run that sees `init` then `failed` stops after two
attempts with a single increment. -/
theorem C3_failed_terminal :
    (∀ (a : Nat) (s : Stats) (out msg : Option String) (t : ℚ),
      pollStep a (.ok ⟨2000, some "failed", out, msg⟩ t) s =
        .thrown .processingFailed { s with failedSwaps := s.failedSwaps + 1 } []) ∧
    (∀ (events : Nat → PollEvent) (s : Stats) (out msg : Option String) (t : ℚ),
      (∃ o m t2, events 1 = .ok ⟨2000, some "init", o, m⟩ t2) →
      events 2 = .ok ⟨2000, some "failed", out, msg⟩ t →
      pollFaceSwapStatus events s =
        { result := .failure .processingFailed
          stats := { s with failedSwaps := s.failedSwaps + 1 }
          waits := [POLL_INTERVAL], attempts := 2 }) := by
  refine ⟨fun a s out msg t => pollStep_failed a s out msg t, ?_⟩
  intro events s out msg t h1 h2
  obtain ⟨o, m, t2, hev1⟩ := h1
  have hstep1 : pollStep 1 (events 1) s = .next [POLL_INTERVAL] s := by
    rw [hev1, pollStep_init]
    norm_num [MAX_RETRIES]
  have hstep2 : pollStep 2 (events 2) s =
      .thrown .processingFailed { s with failedSwaps := s.failedSwaps + 1 } [] := by
    rw [h2]
    exact pollStep_failed 2 s out msg t
  show pollLoop events (4 + 1) 1 s = _
  rw [pollLoop_next events 4 1 s s [POLL_INTERVAL] hstep1]
  rw [show (4 : Nat) = 3 + 1 from rfl]
  rw [pollLoop_thrown events 3 2 s _ .processingFailed [] hstep2]
  simp

/-- C3 witness: the two-attempt clause at concrete events and reset
stats. -/
theorem C3_failed_terminal_witness :
    pollFaceSwapStatus (fun a => if a = 1 then sampleInitEvent else sampleFailedEvent)
        statsReset =
      { result := .failure .processingFailed
        stats := { statsReset with failedSwaps := 1 }
        waits := [POLL_INTERVAL], attempts := 2 } :=
  C3_failed_terminal.2 (fun a => if a = 1 then sampleInitEvent else sampleFailedEvent)
    statsReset none none 0 ⟨none, none, 0, rfl⟩ rfl

/-- C4: the loop keeps two distinct backoff schedules: a non-final
HTTP-level failure waits `min(3000 * 1.5^attempt, 10000)` ms, while a
non-final swallowed exception (a raised transport error or a bad status
code envelope) waits `min(3000 * 1.2^attempt, 8000)` ms, and on every
retrying attempt the two formulas give different values. -/
theorem C4_two_backoff_schedules :
    (∀ (a : Nat) (s : Stats), a ≠ MAX_RETRIES →
      pollStep a .httpFail s =
        .next [min (POLL_INTERVAL * (3 / 2 : ℚ) ^ a) 10000] s) ∧
    (∀ (a : Nat) (s : Stats) (m : String), a ≠ MAX_RETRIES →
      strIncludes m processingFailedText = false →
      pollStep a (.raise m) s =
        .next [min (POLL_INTERVAL * (6 / 5 : ℚ) ^ a) 8000] s) ∧
    (∀ (a : Nat) (s : Stats) (env : StatusEnvelope) (t : ℚ), a ≠ MAX_RETRIES →
      env.statusCode ≠ 2000 →
      strIncludes (PollError.statusCheckError env.message).message
          processingFailedText = false →
      pollStep a (.ok env t) s =
        .next [min (POLL_INTERVAL * (6 / 5 : ℚ) ^ a) 8000] s) ∧
    (∀ a, 1 ≤ a → a < MAX_RETRIES → httpBackoff a ≠ catchBackoff a) := by
  refine ⟨fun a s h => pollStep_httpFail_nonfinal a s h,
    fun a s m h hm => pollStep_raise_nonfinal a s m h hm,
    fun a s env t h hsc hm => pollStep_statusCheck_nonfinal a s env t h hsc hm, ?_⟩
  intro a h1 h2
  simp only [MAX_RETRIES] at h2
  interval_cases a <;>
    norm_num [httpBackoff, catchBackoff, POLL_INTERVAL]

/-- C4 witness: the theorem's clauses at attempt 2. -/
theorem C4_two_backoff_schedules_witness :
    pollStep 2 .httpFail statsReset =
        .next [min (POLL_INTERVAL * (3 / 2 : ℚ) ^ 2) 10000] statsReset ∧
      pollStep 2 (.raise "network error") statsReset =
        .next [min (POLL_INTERVAL * (6 / 5 : ℚ) ^ 2) 8000] statsReset ∧
      httpBackoff 2 ≠ catchBackoff 2 :=
  ⟨C4_two_backoff_schedules.1 2 statsReset (by decide),
    C4_two_backoff_schedules.2.1 2 statsReset "network error" (by decide) (by decide),
    C4_two_backoff_schedules.2.2.2 2 (by decide) (by decide)⟩

/-- C9 (amended): on a well-formed `init` response the poller waits the
fixed 3000 ms interval and continues except on the final allowed
attempt, where it continues without waiting; but on a well-formed
response with any other non-terminal status (any unrecognized value, or
`active` without a usable output) it waits the fixed interval
unconditionally — including on the final allowed attempt. -/
theorem C9_pending_wait_amended :
    (∀ (a : Nat) (s : Stats) (out msg : Option String) (t : ℚ),
      pollStep a (.ok ⟨2000, some "init", out, msg⟩ t) s =
        .next (if a < MAX_RETRIES then [POLL_INTERVAL] else []) s) ∧
    (∀ (a : Nat) (s : Stats) (st out msg : Option String) (t : ℚ),
      ¬(st = some "active" ∧ strTruthy out = true) →
      st ≠ some "failed" → st ≠ some "init" →
      pollStep a (.ok ⟨2000, st, out, msg⟩ t) s = .next [POLL_INTERVAL] s) :=
  ⟨fun a s out msg t => pollStep_init a s out msg t,
    fun a s st out msg t h1 h2 h3 => pollStep_unknownStatus a s st out msg t h1 h2 h3⟩

/-- C9 counterexample: on the final allowed attempt (`attempt = 5`), an
unrecognized status (`"processing"`) still waits the fixed 3000 ms
interval before the loop exits, while `init` does not; across a whole
run ending in an unrecognized status, five waits are performed for five
attempts — one wait after the final attempt, contradicting the claim
that no wait occurs once attempts are exhausted. -/
theorem C9_pending_wait_counterexample :
    pollStep MAX_RETRIES sampleUnknownEvent statsReset =
        .next [POLL_INTERVAL] statsReset ∧
      pollStep MAX_RETRIES sampleInitEvent statsReset = .next [] statsReset ∧
      pollFaceSwapStatus (fun _ => sampleUnknownEvent) statsReset =
        { result := .failure (.pollingExhausted 5)
          stats := { statsReset with failedSwaps := 1 }
          waits := List.replicate 5 (3000 : ℚ)
          attempts := 5 } ∧
      List.replicate 5 (3000 : ℚ) ≠ List.replicate 4 (3000 : ℚ) := by
  refine ⟨?_, ?_, ?_, by decide⟩ <;> decide

/-- C9 witness: the amended theorem at attempt 2 (`init` waits) and at
the final attempt (unrecognized status still waits). -/
theorem C9_pending_wait_witness :
    pollStep 2 sampleInitEvent statsReset = .next (if 2 < MAX_RETRIES then [POLL_INTERVAL] else []) statsReset ∧
      pollStep 5 sampleUnknownEvent statsReset = .next [POLL_INTERVAL] statsReset :=
  ⟨C9_pending_wait_amended.1 2 statsReset none none 0,
    C9_pending_wait_amended.2 5 statsReset (some "processing") none none 0
      (by decide) (by decide) (by decide)⟩

/-- C10: one whole `pollFaceSwapStatus` call never decreases either
counter, changes `successfulSwaps` by at most one, changes `failedSwaps`
by at most one, and increments their sum by at most one — so the in-loop
`failed` increment and the post-loop exhaustion increment can never both
fire in one call. -/
theorem C10_stats_single_increment (events : Nat → PollEvent) (s : Stats) :
    s.successfulSwaps ≤ (pollFaceSwapStatus events s).stats.successfulSwaps ∧
    (pollFaceSwapStatus events s).stats.successfulSwaps ≤ s.successfulSwaps + 1 ∧
    s.failedSwaps ≤ (pollFaceSwapStatus events s).stats.failedSwaps ∧
    (pollFaceSwapStatus events s).stats.failedSwaps ≤ s.failedSwaps + 1 ∧
    (pollFaceSwapStatus events s).stats.successfulSwaps +
        (pollFaceSwapStatus events s).stats.failedSwaps ≤
      s.successfulSwaps + s.failedSwaps + 1 := by
  have h := pollLoop_stats_bound events MAX_RETRIES 1 s
  unfold pollFaceSwapStatus
  omega

/-- C10 witness: the bounds at a concrete run. -/
theorem C10_stats_single_increment_witness :
    (pollFaceSwapStatus (fun _ => sampleUnknownEvent) statsReset).stats.failedSwaps ≤
      statsReset.failedSwaps + 1 :=
  (C10_stats_single_increment (fun _ => sampleUnknownEvent) statsReset).2.2.2.1

/-- C5: `requestFaceSwap` increments `totalRequests` on every call
(before the submission interaction); every failing call additionally
increments `failedSwaps` by one and propagates the error — in
particular a success envelope without a usable order id fails with the
invalid-response error — while a successful call returns the envelope's
order id and leaves `failedSwaps` unchanged. -/
theorem C5_requestFaceSwap_stats (ev : SubmitEvent) (s : Stats) :
    (requestFaceSwap ev s).2.totalRequests = s.totalRequests + 1 ∧
    (∀ e, (requestFaceSwap ev s).1 = .error e →
      (requestFaceSwap ev s).2.failedSwaps = s.failedSwaps + 1) ∧
    (∀ oid, (requestFaceSwap ev s).1 = .ok oid →
      (requestFaceSwap ev s).2.failedSwaps = s.failedSwaps ∧
        ∃ sc o, ev = .ok sc o ∧ sc = 2000 ∧ o = some oid ∧ oid ≠ "") ∧
    (∀ sc o, ev = .ok sc o → ¬(sc = 2000 ∧ strTruthy o = true) →
      (requestFaceSwap ev s).1 = .error .invalidResponse) := by
  rcases ev with st | ⟨sc, oid⟩ | ⟨isAbort, m⟩
  · unfold requestFaceSwap
    refine ⟨rfl, fun e _ => rfl, fun oid h => ?_, fun sc o h => by cases h⟩
    dsimp only at h
    split at h <;> cases h
  · unfold requestFaceSwap
    dsimp only
    by_cases hc : (decide (sc = 2000) && strTruthy oid) = true
    · rw [if_pos hc]
      simp only [Bool.and_eq_true, decide_eq_true_eq] at hc
      obtain ⟨hsc, htr⟩ := hc
      subst hsc
      rcases oid with _ | x
      · cases htr
      · have hx : x ≠ "" := by
          intro hx0
          rw [hx0] at htr
          cases htr
        refine ⟨rfl, fun e he => ?_, fun oid2 h => ?_, fun sc2 o2 h2 hno => ?_⟩
        · cases he
        · injection h with h1
          subst h1
          exact ⟨rfl, 2000, some x, rfl, rfl, rfl, hx⟩
        · injection h2 with e1 e2
          subst e1
          subst e2
          exact absurd ⟨rfl, htr⟩ hno
    · rw [if_neg hc]
      refine ⟨rfl, fun e _ => rfl, ?_, fun sc2 o2 h2 hno => rfl⟩
      intro oid2 h
      cases h
  · unfold requestFaceSwap
    refine ⟨rfl, fun e _ => rfl, ?_, ?_⟩
    · intro oid h
      dsimp only at h
      cases h
    · intro sc o h
      cases h

/-- C5 witness: a successful submission bumps only `totalRequests`; a
missing order id yields the invalid-response error. -/
theorem C5_requestFaceSwap_stats_witness :
    (requestFaceSwap (.ok 2000 (some "ord-1")) statsReset).2.totalRequests =
        statsReset.totalRequests + 1 ∧
      (requestFaceSwap (.ok 2000 none) statsReset).1 =
        .error .invalidResponse :=
  ⟨(C5_requestFaceSwap_stats (.ok 2000 (some "ord-1")) statsReset).1,
    (C5_requestFaceSwap_stats (.ok 2000 none) statsReset).2.2.2 2000 none rfl
      (by simp [strTruthy])⟩

/-- C6: if either image pipeline fails, `performFaceSwap` propagates an
image-stage failure from one of the failing pipelines, and the stats are
returned unchanged — in particular `totalRequests` is not incremented,
so the submission call (`requestFaceSwap`, which always increments it)
was never made. -/
theorem C6_pipeline_failure_aborts (env : SwapJobEnv) (s : Stats)
    (h : (∃ e, sourcePipeline env = .error e) ∨
      (∃ e, targetPipeline env = .error e)) :
    ∃ e, (sourcePipeline env = .error e ∨ targetPipeline env = .error e) ∧
      performFaceSwap env s = (.error (.imageError e), s) := by
  unfold performFaceSwap
  cases hsrc : sourcePipeline env with
  | error e => exact ⟨e, Or.inl rfl, rfl⟩
  | ok u =>
      cases htgt : targetPipeline env with
      | error e => exact ⟨e, Or.inr rfl, rfl⟩
      | ok v =>
          exfalso
          rcases h with ⟨e, he⟩ | ⟨e, he⟩
          · rw [hsrc] at he; cases he
          · rw [htgt] at he; cases he

set_option maxRecDepth 40000 in
/-- C6 witness: the spec's end-to-end failure scenario — a 500-byte
target buffer fails validation with an undersize violation, the job
aborts, and the stats are untouched. -/
theorem C6_pipeline_failure_aborts_witness :
    performFaceSwap sampleFailEnv statsReset =
      (.error (.imageError (.validationFailed [Violation.undersize 500])), statsReset) := by
  obtain ⟨e, hor, hp⟩ := C6_pipeline_failure_aborts sampleFailEnv statsReset
    (Or.inr ⟨.validationFailed [Violation.undersize 500], rfl⟩)
  rcases hor with hs | ht
  · rw [show sourcePipeline sampleFailEnv = .ok "https://img.example/a" from rfl] at hs
    cases hs
  · rw [show targetPipeline sampleFailEnv =
        .error (.validationFailed [Violation.undersize 500]) from rfl] at ht
    injection ht with h1
    subst h1
    exact hp
